import Mathlib

/-!
Verification of the session protocol engine of `cmd/wsclient/main.go`
(an ollama websocket relay client).

The embedding translates the Go source into Lean:

* JSON values and raw wire bytes are modelled by `Json` and `Bytes`;
  the gjson-based field extraction used by `readAndParseMessage`
  (`gjson.ParseBytes(raw).Get(key)`) is modelled by `gjsonGet` /
  `getString`.  gjson never reports a parse error: on bytes that are
  not a JSON object every `Get` reports a non-existent key, whose
  `String()` coercion is the empty string.
* `CloudRequest`, `CloudResponse` and `Message` mirror the Go structs
  (field defaults are the Go zero values; `Data any = nil` becomes
  `Json.null`).
* Handler dispatch (`HandlerFactory.CreateHandler` plus the three
  `Handle` methods) is modelled by the inductive `RequestHandler` and
  the function `Handle`, parameterised over the backend operations
  (`OllamaClientOps`, the `OllamaClient` interface).
* One iteration of `Server.Run` is modelled by `runStep` over an
  `IterEvent` describing which select branch fires and what the
  connection returns; `runTrace` folds iterations.  Writes attempted on
  the connection and log calls are recorded explicitly.
* `DefaultOllamaClient.ListModels` with its go-cache is modelled by
  `ListModels` over an explicit cache state.
* The connect-retry logic of `main` is modelled by `connectLoop` /
  `mainModel` with a fuel bound on the number of observed iterations.
-/

namespace OllamaWsClient

/-- JSON values as exchanged on the wire. -/
inductive Json where
  | null
  | str (s : String)
  | num (n : Int)
  | bool (b : Bool)
  | arr (elems : List Json)
  | obj (fields : List (String × Json))

/-- Raw bytes delivered by `ReadMessage`: either a frame that parses as a
JSON document, or bytes that are not valid structured data. -/
inductive Bytes where
  | json (j : Json)
  | malformed (raw : String)

/-- Lookup of a key in a JSON object field list (first match wins, as in
the gjson `Get` path lookup). -/
def jsonLookup : List (String × Json) → String → Option Json
  | [], _ => none
  | (k, v) :: rest, key => if k = key then some v else jsonLookup rest key

/-- `gjson.ParseBytes(raw).Get(key)`: on anything but a JSON object the key
does not exist (gjson performs no validation and simply fails to find the
path in malformed or non-object input). -/
def gjsonGet : Bytes → String → Option Json
  | .json (.obj fields), key => jsonLookup fields key
  | _, _ => none

/-- `Result.Exists()` for a top-level key. -/
def hasKey (b : Bytes) (key : String) : Bool :=
  (gjsonGet b key).isSome

/-- `Result.String()`: strings are returned as-is, numbers and booleans are
rendered, a missing key or `null` gives `""`.  (For nested JSON gjson
returns the raw text; no field read by this program ever holds nested
JSON, so that case is collapsed to `""` here.) -/
def jsonToString : Option Json → String
  | some (.str s) => s
  | some (.num n) => toString n
  | some (.bool b) => if b then "true" else "false"
  | _ => ""

/-- `gjson.ParseBytes(raw).Get(key).String()`. -/
def getString (b : Bytes) (key : String) : String :=
  jsonToString (gjsonGet b key)

/-- A chat message inside `CloudRequest.Params.Messages`. -/
structure ChatMsg where
  role : String
  content : String

/-- One entry of the model list: the Go code builds
`map[string]string{"model_name": name, "status": digest}` per model. -/
structure ModelEntry where
  model_name : String
  status : String

/-- `CloudRequest.Params` (Go zero values as defaults). -/
structure CloudRequestParams where
  model_name : String := ""
  messages : List ChatMsg := []

/-- The `CloudRequest` struct. -/
structure CloudRequest where
  type_ : String := ""
  action : String := ""
  request_id : String := ""
  params : CloudRequestParams := {}

/-- The `CloudResponse` struct; `Data any` is `nil` (`Json.null`) by
default. -/
structure CloudResponse where
  type_ : String := ""
  action : String := ""
  request_id : String := ""
  data : Json := .null
  status : String := ""

/-- The `Message` struct: raw bytes plus the optional request / response
pointers (`none` models a nil pointer). -/
structure Message where
  raw : Bytes
  request : Option CloudRequest := none
  response : Option CloudResponse := none

/-- The backend operations behind the `OllamaClient` interface, as seen by
a single handler invocation: the outcome of `Chat` for given arguments and
the outcome of one `ListModels` call. -/
structure OllamaClientOps where
  chat : String → List ChatMsg → Except String String
  listModels : Except String (List ModelEntry)

/-- The three concrete `RequestHandler` implementations.  The Go factory
returns freshly allocated non-nil pointers; here handlers are plain
values, so resolution is total by construction. -/
inductive RequestHandler where
  | listModelHandler
  | chatHandler
  | defaultHandler

/-- `HandlerFactory.CreateHandler`: switch on the action tag, defaulting to
`DefaultHandler`. -/
def CreateHandler (action : String) : RequestHandler :=
  if action = "list_model" then .listModelHandler
  else if action = "chat" then .chatHandler
  else .defaultHandler

/-- JSON encoding of the `[]map[string]string` model list built by
`ListModelHandler.Handle` (the Go `json.Marshal` sorts map keys, so
`model_name` precedes `status`). -/
def modelsToJson (ms : List ModelEntry) : Json :=
  .arr (ms.map fun m => .obj [("model_name", .str m.model_name), ("status", .str m.status)])

/-- The `Handle` methods of the three handlers.
`ListModelHandler.Handle` wraps the backend list into a `done` response;
`ChatHandler.Handle` wraps the chat reply; `DefaultHandler.Handle` always
returns the unknown-action error. -/
def Handle (client : OllamaClientOps) : RequestHandler → CloudRequest → Except String CloudResponse
  | .listModelHandler, req =>
    match client.listModels with
    | .error e => .error e
    | .ok models =>
      .ok { type_ := "client_to_server", action := req.action, request_id := req.request_id,
            data := modelsToJson models, status := "done" }
  | .chatHandler, req =>
    match client.chat req.params.model_name req.params.messages with
    | .error e => .error e
    | .ok response =>
      .ok { type_ := "client_to_server", action := req.action, request_id := req.request_id,
            data := .obj [("message", .obj [("role", .str "assistant"),
                                            ("content", .str response)])],
            status := "done" }
  | .defaultHandler, req => .error ("未知的动作: " ++ req.action)

/-- What one call of `conn.ReadMessage()` produced in the `default` branch
of the select in `Run`: a read timeout, another read error, or raw bytes. -/
inductive ReadResult where
  | timeout
  | fail (e : String)
  | bytes (raw : Bytes)

/-- The error returned by `readAndParseMessage` (it only fails when the
underlying read fails; the error text wraps the cause as
`fmt.Errorf("WebSocket 读取消息错误: %w", err)` does).  The timeout
constructor marks the case where the wrapped cause was a net timeout,
which `Run` tests for to take its non-fatal log-and-continue branch. -/
inductive ReadErr where
  | timeout
  | other (e : String)

/-- `Server.readAndParseMessage`: a read error is wrapped and returned;
otherwise the frame is parsed with gjson.  If the `request_id` key exists
the message is returned with a freshly allocated empty `CloudResponse`
and a nil `Request`; otherwise a `CloudRequest` is filled from the
`type` / `action` / `request_id` fields (missing fields read as `""`)
and the `Response` is nil. -/
def readAndParseMessage : ReadResult → Except ReadErr Message
  | .timeout => .error .timeout
  | .fail e => .error (.other ("WebSocket 读取消息错误: " ++ e))
  | .bytes raw =>
    if hasKey raw "request_id" then
      .ok { raw := raw, request := none, response := some {} }
    else
      .ok { raw := raw,
            request := some { type_ := getString raw "type",
                              action := getString raw "action",
                              request_id := getString raw "request_id" },
            response := none }

/-- The request built by the no-`request_id` branch of
`readAndParseMessage` for a raw frame. -/
def mkRequest (raw : Bytes) : CloudRequest :=
  { type_ := getString raw "type",
    action := getString raw "action",
    request_id := getString raw "request_id" }

/-- A write attempted on the connection: a heartbeat request (its fresh
uuid is abstracted away) or a serialized `CloudResponse`. -/
inductive Wire where
  | heartbeat
  | response (resp : CloudResponse)

/-- The log calls `Run` and its helpers make, one constructor per call
site. -/
inductive LogEntry where
  | deadlineError (e : String)
  | heartbeatSent
  | heartbeatSendError (e : String)
  | readTimeoutInfo
  | readError (e : String)
  | serverRequestError (e : String)
  | clientResponseError (e : String)

/-- `Server.sendHeartbeat` (marshalling a `CloudRequest` cannot fail, so
only the `WriteMessage` outcome matters; on success it logs
`心跳已发送`, recorded by the caller). -/
def sendHeartbeat (sendR : Except String Unit) : Except String Unit :=
  match sendR with
  | .ok _ => .ok ()
  | .error e => .error ("发送心跳消息失败: " ++ e)

/-- `Server.sendResponse` (again marshalling cannot fail; a write failure
is wrapped). -/
def sendResponse (sendR : Except String Unit) : Except String Unit :=
  match sendR with
  | .ok _ => .ok ()
  | .error e => .error ("WebSocket 写入消息错误: " ++ e)

/-- `Server.handleServerRequest`: reject a nil or action-less request,
dispatch through the factory, and on handler success send the response.
Returns the error `Run` will log (if any) together with the writes
attempted on the connection. -/
def handleServerRequest (client : OllamaClientOps) (sendR : Except String Unit)
    (msg : Message) : Except String Unit × List Wire :=
  match msg.request with
  | none => (.error "处理消息时发生错误: 请求为空", [])
  | some req =>
    if req.action = "" then (.error "处理消息时发生错误: 动作为空", [])
    else
      match Handle client (CreateHandler req.action) req with
      | .error e => (.error e, [])
      | .ok resp =>
        match sendResponse sendR with
        | .ok _ => (.ok (), [.response resp])
        | .error e => (.error e, [.response resp])

/-- `Server.processMessage`: its first statement evaluates
`msg.Request.Action`.  This function is only reached when `msg.Response`
is non-nil, in which case `readAndParseMessage` left `msg.Request` nil —
evaluating `msg.Request.Action` then dereferences a nil pointer, modelled
by the `none` result (a Go panic).  The `resp == nil` check after a nil
handler error is unreachable here because every handler returning a nil
error returns a non-nil response. -/
def processMessage (client : OllamaClientOps) (sendR : Except String Unit)
    (msg : Message) : Option (Except String Unit × List Wire) :=
  match msg.request with
  | none => none
  | some req =>
    match Handle client (CreateHandler req.action) req with
    | .error e => some (.error ("处理请求失败: " ++ e), [])
    | .ok resp =>
      match sendResponse sendR with
      | .ok _ => some (.ok (), [.response resp])
      | .error e => some (.error e, [.response resp])

/-- The event driving one iteration of the `for` loop of `Run`: either
`SetReadDeadline` fails, or the heartbeat ticker fires (with the
connection outcome for the heartbeat write), or the `default` branch
runs a read (with the connection outcome for any response write this
iteration attempts). -/
inductive IterEvent where
  | deadlineFail (e : String)
  | tick (sendR : Except String Unit)
  | readBranch (r : ReadResult) (sendR : Except String Unit)

/-- The observable effects of one loop iteration. -/
structure StepEffects where
  log : List LogEntry
  writes : List Wire

/-- The outcome of one iteration of `Run`: keep looping, return the error
(only `SetReadDeadline` failure does this), or panic (the nil `Request`
dereference in `processMessage`). -/
inductive StepOutcome where
  | running (eff : StepEffects)
  | fatal (e : String) (eff : StepEffects)
  | panics

/-- One iteration of `Server.Run`, exactly following the source:
a `SetReadDeadline` error is logged and returned; a heartbeat-send error
is logged and the loop continues (the source comment notes reconnect
logic "can be added", i.e. is absent); a read timeout and any other
read error are logged and the loop continues; a parsed message with nil
`Response` goes to `handleServerRequest` (errors logged, loop continues),
and one with non-nil `Response` goes to `processMessage`. -/
def runStep (client : OllamaClientOps) : IterEvent → StepOutcome
  | .deadlineFail e => .fatal e { log := [.deadlineError e], writes := [] }
  | .tick sendR =>
    match sendHeartbeat sendR with
    | .ok _ => .running { log := [.heartbeatSent], writes := [.heartbeat] }
    | .error e => .running { log := [.heartbeatSendError e], writes := [.heartbeat] }
  | .readBranch r sendR =>
    match readAndParseMessage r with
    | .error .timeout => .running { log := [.readTimeoutInfo], writes := [] }
    | .error (.other e) => .running { log := [.readError e], writes := [] }
    | .ok msg =>
      match msg.response with
      | none =>
        match handleServerRequest client sendR msg with
        | (.ok _, ws) => .running { log := [], writes := ws }
        | (.error e, ws) => .running { log := [.serverRequestError e], writes := ws }
      | some _ =>
        match processMessage client sendR msg with
        | none => .panics
        | some (.ok _, ws) => .running { log := [], writes := ws }
        | some (.error e, ws) => .running { log := [.clientResponseError e], writes := ws }

/-- The outcome of running `Run` through a finite sequence of iteration
events: still in the loop, returned with an error, or panicked; logs and
writes are accumulated in order. -/
inductive TraceOutcome where
  | running (log : List LogEntry) (writes : List Wire)
  | fatal (e : String) (log : List LogEntry) (writes : List Wire)
  | panics (log : List LogEntry) (writes : List Wire)

/-- Fold `runStep` over a list of iteration events. -/
def runTrace (client : OllamaClientOps) : List IterEvent → TraceOutcome
  | [] => .running [] []
  | ev :: rest =>
    match runStep client ev with
    | .running eff =>
      match runTrace client rest with
      | .running l w => .running (eff.log ++ l) (eff.writes ++ w)
      | .fatal e l w => .fatal e (eff.log ++ l) (eff.writes ++ w)
      | .panics l w => .panics (eff.log ++ l) (eff.writes ++ w)
    | .fatal e eff => .fatal e eff.log eff.writes
    | .panics => .panics [] []

/-- A model as returned by the ollama API `List` call (`model.Name`,
`model.Digest`). -/
structure BackendModel where
  name : String
  digest : String

/-- One entry of the in-memory go-cache under the `"models"` key,
remembering the lifetime it was stored with. -/
structure CacheEntry where
  value : List ModelEntry
  ttlSeconds : Nat

/-- The cache state visible to `ListModels`: the (unexpired) entry under
the `"models"` key, if any. -/
structure MemCache where
  models : Option CacheEntry := none

/-- `DefaultOllamaClient.ListModels`: serve the cached list if present;
otherwise call the backend (`listResult` is the outcome of that call), convert
each model to a `model_name`/`status` entry, store the list in the cache
for 120 seconds, and return it. -/
def ListModels (listResult : Except String (List BackendModel)) (c : MemCache) :
    Except String (List ModelEntry × MemCache) :=
  match c.models with
  | some entry => .ok (entry.value, c)
  | none =>
    match listResult with
    | .error e => .error e
    | .ok ms =>
      let data := ms.map fun m => { model_name := m.name, status := m.digest }
      .ok (data, { models := some { value := data, ttlSeconds := 120 } })

/-- The fixed sleep between connection attempts in `main`
(`time.Sleep(5 * time.Second)`). -/
def reconnectBackoffSeconds : Nat := 5

/-- The connect-retry loop of `main` observed for `fuel` iterations:
returns the attempt index of the first successful dial (equal to the
number of failed attempts, each of which sleeps the backoff), or `none`
if every observed attempt failed and the loop is still retrying. -/
def connectLoop (dial : Nat → Bool) : Nat → Nat → Option Nat
  | 0, _ => none
  | fuel + 1, attempt =>
    if dial attempt then some attempt else connectLoop dial fuel (attempt + 1)

/-- How `main` ends (or fails to end) within the observed fuel. -/
inductive MainResult where
  | stillRetrying
  | startupExit
  | runExit (e : String)

/-- The observable outcome of `main` after the address prompt: the final
result, the number of dial attempts made, and the number of backoff
sleeps. -/
structure MainRun where
  result : MainResult
  dials : Nat
  sleeps : Nat

/-- `main` after reading a non-empty address: retry `Connect` until it
succeeds (sleeping the fixed backoff after each failure), then create the
ollama client (`ollamaOk` is whether that succeeds; on failure
`os.Exit(1)`), then call `server.Run()` exactly once; when `Run` returns
its error `runErr`, `main` logs it and calls `os.Exit(1)` — it never
dials again. -/
def mainModel (dial : Nat → Bool) (ollamaOk : Bool) (runErr : String)
    (fuel : Nat) : MainRun :=
  match connectLoop dial fuel 0 with
  | none => { result := .stillRetrying, dials := fuel, sleeps := fuel }
  | some k =>
    { result := if ollamaOk then .runExit runErr else .startupExit,
      dials := k + 1, sleeps := k }

/-! Concrete fixtures used by witnesses and counterexamples. -/

/-- A backend whose chat and list operations both fail. -/
def failClient : OllamaClientOps :=
  { chat := fun _ _ => .error "chat backend down", listModels := .error "backend down" }

/-- A backend whose list operation returns one llama3 model. -/
def llamaClient : OllamaClientOps :=
  { chat := fun _ _ => .error "chat backend down",
    listModels := .ok [{ model_name := "llama3", status := "abc123" }] }

/-- An inbound frame carrying only an action, no request_id key. -/
def listFrame : Bytes := .json (.obj [("action", .str "list_model")])

/-- The round-trip request frame of the spec scenario. -/
def c5Frame : Bytes :=
  .json (.obj [("type", .str "client_to_server"), ("action", .str "list_model"),
               ("request_id", .str "r1")])

/-- The same frame but with an empty request_id value. -/
def emptyIdFrame : Bytes :=
  .json (.obj [("type", .str "client_to_server"), ("action", .str "list_model"),
               ("request_id", .str "")])

/-- An inbound frame with a peer-issued request_id key. -/
def reqIdFrame : Bytes :=
  .json (.obj [("type", .str "server_to_client"), ("request_id", .str "id-1")])

/-- A heartbeat-class envelope (type heartbeat, action ping, no
request_id key). -/
def pingFrame : Bytes :=
  .json (.obj [("type", .str "heartbeat"), ("action", .str "ping")])

/-! Claim theorems. -/

/-- Claim C1, counterexample: an inbound envelope whose request_id value is
empty (so it carries no non-empty id this side issued) is nonetheless
classified as a Response (nil request, fresh empty response) instead of
being treated as a Request needing dispatch; the loop then panics on it
rather than dispatching a handler. -/
theorem c1_counterexample :
    readAndParseMessage (.bytes emptyIdFrame)
      = .ok { raw := emptyIdFrame, request := none, response := some {} }
    ∧ runStep failClient (.readBranch (.bytes emptyIdFrame) (.ok ())) = .panics := by
  constructor <;> rfl

/-- Claim C1, amended: classification is by mere presence of the
request_id key — any inbound envelope whose JSON contains a request_id
key (empty or peer-issued included) is classified as a Response, and on
such an envelope the loop panics (nil request dereference) instead of
dispatching a handler; only envelopes lacking the key are treated as
Requests needing dispatch. -/
theorem c1_amended (client : OllamaClientOps) (raw : Bytes) (s : Except String Unit) :
    readAndParseMessage (.bytes raw)
      = .ok (if hasKey raw "request_id" then
               { raw := raw, request := none, response := some {} }
             else
               { raw := raw, request := some (mkRequest raw), response := none })
    ∧ (hasKey raw "request_id" = true →
        runStep client (.readBranch (.bytes raw) s) = .panics) := by
  constructor
  · by_cases h : hasKey raw "request_id" <;> simp [readAndParseMessage, mkRequest, h]
  · intro h
    simp [runStep, readAndParseMessage, h, processMessage]

/-- Witness for the amended C1 at a concrete envelope with a request_id
key. -/
theorem c1_amended_witness :
    readAndParseMessage (.bytes reqIdFrame)
      = .ok (if hasKey reqIdFrame "request_id" then
               { raw := reqIdFrame, request := none, response := some {} }
             else
               { raw := reqIdFrame, request := some (mkRequest reqIdFrame), response := none })
    ∧ runStep failClient (.readBranch (.bytes reqIdFrame) (.ok ())) = .panics :=
  ⟨(c1_amended failClient reqIdFrame (.ok ())).1,
   (c1_amended failClient reqIdFrame (.ok ())).2 (by rfl)⟩

/-- Claim C2: every inbound frame whose JSON contains a request_id key is
parsed into a message with nil request and non-nil (empty) response, and
the loop iteration on such a frame reaches the nil-request dereference in
processMessage — a panic; no such frame can be processed. -/
theorem c2_request_id_panics (client : OllamaClientOps) (raw : Bytes)
    (s : Except String Unit) (h : hasKey raw "request_id" = true) :
    readAndParseMessage (.bytes raw)
      = .ok { raw := raw, request := none, response := some {} }
    ∧ runStep client (.readBranch (.bytes raw) s) = .panics := by
  constructor
  · simp [readAndParseMessage, h]
  · simp [runStep, readAndParseMessage, h, processMessage]

/-- Witness for C2 at the round-trip frame. -/
theorem c2_request_id_panics_witness :
    readAndParseMessage (.bytes c5Frame)
      = .ok { raw := c5Frame, request := none, response := some {} }
    ∧ runStep llamaClient (.readBranch (.bytes c5Frame) (.error "w")) = .panics :=
  c2_request_id_panics llamaClient c5Frame (.error "w") (by rfl)

/-- Claim C3, counterexample: with a connection whose writes fail, a
heartbeat send error is merely logged and the loop keeps running (it does
not stop or surface the error), and a response send error is likewise
logged and the loop keeps running. -/
theorem c3_counterexample :
    runStep failClient (.tick (.error "write failed"))
      = .running { log := [.heartbeatSendError "发送心跳消息失败: write failed"],
                   writes := [.heartbeat] }
    ∧ runStep llamaClient (.readBranch (.bytes listFrame) (.error "write failed"))
      = .running { log := [.serverRequestError "WebSocket 写入消息错误: write failed"],
                   writes := [.response { type_ := "client_to_server", action := "list_model",
                                          request_id := "",
                                          data := modelsToJson
                                            [{ model_name := "llama3", status := "abc123" }],
                                          status := "done" }] } := by
  constructor <;> rfl

/-- Claim C3, amended: errors while sending (heartbeat or response) are
logged and the session loop continues running — they are not fatal; the
only error the loop surfaces to its caller is a failure to arm the read
deadline. -/
theorem c3_amended (client : OllamaClientOps) (e : String) (raw : Bytes)
    (req : CloudRequest) (resp : CloudResponse)
    (hparse : readAndParseMessage (.bytes raw)
      = .ok { raw := raw, request := some req, response := none })
    (hact : req.action ≠ "")
    (hok : Handle client (CreateHandler req.action) req = .ok resp) :
    runStep client (.tick (.error e))
      = .running { log := [.heartbeatSendError ("发送心跳消息失败: " ++ e)],
                   writes := [.heartbeat] }
    ∧ runStep client (.readBranch (.bytes raw) (.error e))
      = .running { log := [.serverRequestError ("WebSocket 写入消息错误: " ++ e)],
                   writes := [.response resp] }
    ∧ runStep client (.deadlineFail e)
      = .fatal e { log := [.deadlineError e], writes := [] } := by
  refine ⟨by simp [runStep, sendHeartbeat], ?_, rfl⟩
  simp [runStep, hparse, handleServerRequest, hact, hok, sendResponse]

/-- Witness for the amended C3 at a concrete failing connection. -/
theorem c3_amended_witness :
    runStep llamaClient (.tick (.error "w"))
      = .running { log := [.heartbeatSendError ("发送心跳消息失败: " ++ "w")],
                   writes := [.heartbeat] }
    ∧ runStep llamaClient (.readBranch (.bytes listFrame) (.error "w"))
      = .running { log := [.serverRequestError ("WebSocket 写入消息错误: " ++ "w")],
                   writes := [.response { type_ := "client_to_server", action := "list_model",
                                          request_id := "",
                                          data := modelsToJson
                                            [{ model_name := "llama3", status := "abc123" }],
                                          status := "done" }] }
    ∧ runStep llamaClient (.deadlineFail "w")
      = .fatal "w" { log := [.deadlineError "w"], writes := [] } :=
  c3_amended llamaClient "w" listFrame { action := "list_model" }
    { type_ := "client_to_server", action := "list_model", request_id := "",
      data := modelsToJson [{ model_name := "llama3", status := "abc123" }],
      status := "done" }
    (by rfl) (by decide) (by rfl)

/-- Claim C4, counterexample: with a dial that succeeds immediately and a
session loop that returns the error "session failed", the process makes
exactly one dial, never dials again, and exits — so it does terminate on
a session-level error instead of looping back to dial. -/
theorem c4_counterexample :
    mainModel (fun _ => true) true "session failed" 1
      = { result := .runExit "session failed", dials := 1, sleeps := 0 } := by
  rfl

/-- Claim C4, amended: while dial keeps failing the driver sleeps the
fixed backoff after every attempt and retries without bound (no maximum
retry count); after the first successful dial it runs the session loop
exactly once and, when the session loop returns, the process exits with
that error — it does not loop back to dial. -/
theorem c4_retry_then_single_session (ok : Bool) (e : String) (fuel : Nat) :
    mainModel (fun _ => false) ok e fuel
      = { result := .stillRetrying, dials := fuel, sleeps := fuel }
    ∧ mainModel (fun _ => true) true e (fuel + 1)
      = { result := .runExit e, dials := 1, sleeps := 0 } := by
  constructor
  · have h : ∀ n a, connectLoop (fun _ => false) n a = none := by
      intro n
      induction n with
      | zero => intro a; rfl
      | succ n ih => intro a; simp [connectLoop, ih]
    simp [mainModel, h]
  · simp [mainModel, connectLoop]

/-- Claim C5: on the round-trip frame (type client_to_server, action
list_model, request_id r1) with a backend returning the llama3 model, the
loop iteration panics (the frame is classified as a Response because it
carries a request_id key, and processMessage dereferences the nil
request) and writes nothing — even though the list_model handler, had it
been dispatched, would have produced exactly the envelope the spec
expects. -/
theorem c5_round_trip_bug :
    runStep llamaClient (.readBranch (.bytes c5Frame) (.ok ())) = .panics
    ∧ Handle llamaClient (CreateHandler "list_model")
        { type_ := "client_to_server", action := "list_model", request_id := "r1" }
      = .ok { type_ := "client_to_server", action := "list_model", request_id := "r1",
              data := .arr [.obj [("model_name", .str "llama3"), ("status", .str "abc123")]],
              status := "done" } := by
  constructor <;> rfl

/-- Claim C6: any number of consecutive read timeouts leaves the loop
running (each timeout only logs the timeout message and writes nothing),
and a heartbeat tick after them still emits the heartbeat. -/
theorem c6_timeout_nonfatal (client : OllamaClientOps) (n : Nat) (s : Except String Unit) :
    runTrace client (List.replicate n (.readBranch .timeout s))
      = .running (List.replicate n .readTimeoutInfo) []
    ∧ runTrace client (List.replicate n (.readBranch .timeout s) ++ [.tick (.ok ())])
      = .running (List.replicate n .readTimeoutInfo ++ [.heartbeatSent]) [.heartbeat] := by
  induction n with
  | zero => exact ⟨rfl, rfl⟩
  | succ n ih =>
    constructor
    · simp [List.replicate_succ, runTrace, runStep, readAndParseMessage, ih.1]
    · simp [List.replicate_succ, runTrace, runStep, readAndParseMessage, ih.2]

/-- Claim C7, counterexample: on bytes that are not valid structured data,
decoding does NOT yield a decode error — readAndParseMessage returns a
successfully parsed message whose request has every field defaulted to
the empty string. -/
theorem c7_counterexample :
    readAndParseMessage (.bytes (.malformed "this is not json"))
      = .ok { raw := .malformed "this is not json", request := some {}, response := none } := by
  rfl

/-- Claim C7, amended: a malformed frame is recoverable, but not via a
decode error — decoding is total, the frame becomes a Request with empty
fields, its dispatch fails the empty-action check, and exactly one error
is logged for it; the connection is not closed, the session keeps
running, and a subsequent valid frame is processed normally. -/
theorem c7_malformed_survives (client : OllamaClientOps) (m : String)
    (s1 s2 : Except String Unit) :
    runStep client (.readBranch (.bytes (.malformed m)) s1)
      = .running { log := [.serverRequestError "处理消息时发生错误: 动作为空"], writes := [] }
    ∧ runTrace client [.readBranch (.bytes (.malformed m)) s1,
                       .readBranch (.bytes pingFrame) s2]
      = .running [.serverRequestError "处理消息时发生错误: 动作为空",
                  .serverRequestError "未知的动作: ping"] [] := by
  constructor <;> rfl

/-- Claim C8: every action not registered in the factory resolves to the
default handler (resolution is total — there is no failing branch), and
that handler returns the unknown-action error on every request. -/
theorem c8_unknown_action_default (action : String) (client : OllamaClientOps)
    (req : CloudRequest) (h1 : action ≠ "list_model") (h2 : action ≠ "chat") :
    CreateHandler action = .defaultHandler
    ∧ Handle client (CreateHandler action) req = .error ("未知的动作: " ++ req.action) := by
  have hc : CreateHandler action = .defaultHandler := by
    simp [CreateHandler, h1, h2]
  refine ⟨hc, ?_⟩
  rw [hc]
  rfl

/-- Witness for C8 at the action "nonexistent-action". -/
theorem c8_unknown_action_default_witness :
    CreateHandler "nonexistent-action" = .defaultHandler
    ∧ Handle failClient (CreateHandler "nonexistent-action")
        { action := "nonexistent-action" }
      = .error "未知的动作: nonexistent-action" :=
  c8_unknown_action_default "nonexistent-action" failClient
    { action := "nonexistent-action" } (by decide) (by decide)

/-- Claim C9: when an inbound frame parses to a Request with a non-empty
action and the resolved handler fails, the loop logs exactly that error,
attempts no write on the connection, and keeps running. -/
theorem c9_handler_failure_drops (client : OllamaClientOps) (raw : Bytes)
    (req : CloudRequest) (s : Except String Unit) (e : String)
    (hparse : readAndParseMessage (.bytes raw)
      = .ok { raw := raw, request := some req, response := none })
    (hact : req.action ≠ "")
    (herr : Handle client (CreateHandler req.action) req = .error e) :
    runStep client (.readBranch (.bytes raw) s)
      = .running { log := [.serverRequestError e], writes := [] } := by
  simp [runStep, hparse, handleServerRequest, hact, herr]

/-- Witness for C9: a failing list backend drops the request silently. -/
theorem c9_handler_failure_drops_witness :
    runStep failClient (.readBranch (.bytes listFrame) (.ok ()))
      = .running { log := [.serverRequestError "backend down"], writes := [] } :=
  c9_handler_failure_drops failClient listFrame { action := "list_model" }
    (.ok ()) "backend down" (by rfl) (by decide) (by rfl)

/-- Claim C10: a present cache entry is returned as-is without consulting
the backend (the result is independent of the backend outcome), and on a
cache miss the backend list is converted to model_name/status entries,
stored with a 120-second lifetime, and returned exactly. -/
theorem c10_list_models_cache (b1 b2 : Except String (List BackendModel))
    (c : MemCache) (entry : CacheEntry) (ms : List BackendModel)
    (hhit : c.models = some entry) :
    ListModels b1 c = .ok (entry.value, c)
    ∧ ListModels b1 c = ListModels b2 c
    ∧ ListModels (.ok ms) { models := none }
      = .ok (ms.map fun m => { model_name := m.name, status := m.digest },
             { models := some { value := ms.map fun m =>
                                  { model_name := m.name, status := m.digest },
                                ttlSeconds := 120 } }) := by
  refine ⟨?_, ?_, rfl⟩
  · simp [ListModels, hhit]
  · simp [ListModels, hhit]

/-- Witness for C10 at a concrete cache hit and a concrete miss. -/
theorem c10_list_models_cache_witness :
    ListModels (.error "backend down")
        { models := some { value := [{ model_name := "llama3", status := "abc123" }],
                           ttlSeconds := 120 } }
      = .ok ([{ model_name := "llama3", status := "abc123" }],
             { models := some { value := [{ model_name := "llama3", status := "abc123" }],
                                ttlSeconds := 120 } })
    ∧ ListModels (.error "backend down")
        { models := some { value := [{ model_name := "llama3", status := "abc123" }],
                           ttlSeconds := 120 } }
      = ListModels (.ok [])
          { models := some { value := [{ model_name := "llama3", status := "abc123" }],
                             ttlSeconds := 120 } }
    ∧ ListModels (.ok [{ name := "m1", digest := "d1" }]) { models := none }
      = .ok ([{ model_name := "m1", status := "d1" }],
             { models := some { value := [{ model_name := "m1", status := "d1" }],
                                ttlSeconds := 120 } }) :=
  c10_list_models_cache (.error "backend down") (.ok [])
    { models := some { value := [{ model_name := "llama3", status := "abc123" }],
                       ttlSeconds := 120 } }
    { value := [{ model_name := "llama3", status := "abc123" }], ttlSeconds := 120 }
    [{ name := "m1", digest := "d1" }] (by rfl)

end OllamaWsClient
